import Mathlib

/-!
Verification of the scrape-parse-dedupe-persist pipeline of the blog-api
repository (`parser/items.py`, `parser/parse.py`, `parser/database.py`,
`parser/__main__.py`), as a shallow embedding in Lean.

Modelling conventions, justified line-by-line against the source:

* `Article` (parser/items.py) is a dataclass with fields `title` and `url`;
  both are produced by `WebParser._get_title` / `WebParser._get_url`, which can
  return `None`, so both fields are embedded as `Option String`.

* A listing row (`tr.athing` in the fetched page) is embedded abstractly as
  `Row`, keeping exactly the structure `WebParser._parse_single_article`
  inspects: whether `article_soup.find("span", class_="titleline")` succeeds,
  whether that span has an `.a` child, and if so the anchor's inner text
  (what `get_text()` returns) and its optional `href` attribute.

* `ParsedArticle` (parser/database.py) has columns `id` (auto-increment
  surrogate primary key), `title`, `url` (both nullable, no unique
  constraint).  The `id` never takes part in any lookup, dedupe decision or
  claim, so the embedded `StoredRecord` keeps only `title` and `url`; the
  store is a `List StoredRecord` in insertion order.

* `write_to_db` runs inside one SQLAlchemy `AsyncSession`.  Two session facts
  are part of the embedding: (a) `session.execute(select(...))` autoflushes
  pending `session.add`ed rows into the open transaction before running the
  SELECT, so rows staged earlier in the same run are visible to later
  existence checks; (b) `ParsedArticle.url == article.url` compiles to
  `url IS NULL` when `article.url` is `None`, which is exactly `Option`
  equality (`BEq (Option String)`) on the embedded field.  The session is
  committed once after the loop; if `scalar_one_or_none` raises
  (`MultipleResultsFound`, on two or more matching rows) the commit is never
  reached and the session context manager rolls everything back.

* Severities of log calls are recorded as `LogEvent`s in source order.
  `httpx`: `response.raise_for_status()` raises `httpx.HTTPStatusError` on a
  non-2xx status; that class is a sibling of `httpx.RequestError` (both
  extend `httpx.HTTPError`), so the `except httpx.RequestError` clause in
  `parse_all_articles` does not catch it and it propagates out of `main`.
-/

/-- `Article` from parser/items.py: the dataclass produced by the extractor.
Both fields may be `None` (see `_get_title` / `_get_url`). -/
structure Article where
  title : Option String
  url : Option String
deriving Repr, DecidableEq

/-- One row of the `parsed_articles` table (class `ParsedArticle` in
parser/database.py) minus the surrogate auto-increment `id`, which no lookup
or claim ever reads.  Both columns are nullable. -/
structure StoredRecord where
  title : Option String
  url : Option String
deriving Repr, DecidableEq

/-- A log call, with the severity used at each call site of
`parser.logger.logger`. -/
inductive LogEvent
  | info (msg : String)
  | warning (msg : String)
  | error (msg : String)
deriving Repr, DecidableEq

/-- Abstract shape of one `tr.athing` listing row, keeping exactly what
`WebParser._parse_single_article` looks at:

* `noTitleline`: `find("span", class_="titleline")` returns `None`, so the
  subsequent `.a` attribute access raises `AttributeError`;
* `noLink`: the span exists but its `.a` is `None` (falsy walrus test);
* `link innerText href`: the nested anchor exists, `get_text()` returns
  `innerText` and `get("href")` returns `href` (`none` when the attribute is
  absent). -/
inductive Row
  | noTitleline
  | noLink
  | link (innerText : String) (href : Option String)
deriving Repr, DecidableEq

/-- Python `str.strip()`: drop leading and trailing whitespace characters,
as a structural function on the string's character list. -/
def strip (s : String) : String :=
  ⟨((s.data.dropWhile Char.isWhitespace).reverse.dropWhile Char.isWhitespace).reverse⟩

/-- `WebParser._get_title`: `article.get_text().strip()`.  On a real anchor
tag `get_text` always returns a string (possibly empty), so the
`AttributeError` branch returning `None` is unreachable here. -/
def get_title (innerText : String) : Option String :=
  some (strip innerText)

/-- `WebParser._get_url`: `article.get("href")`, which is `None` exactly when
the attribute is absent. -/
def get_url (href : Option String) : Option String :=
  href

/-- `WebParser._parse_single_article`: returns the optional `Article` for the
row together with the log events emitted while handling it.

* anchor present: build `Article(title=_get_title(a), url=_get_url(a))`;
* span present, anchor absent: the walrus test is falsy, so
  `logger.warning("No article found in soup.")` and fall through to `None`;
* span absent: `.a` on `None` raises `AttributeError`, caught by
  `except Exception` which logs `logger.error(f"Error parsing article: ...")`
  and falls through to `None`. -/
def parse_single_article : Row → Option Article × List LogEvent
  | .noTitleline => (none, [.error "Error parsing article"])
  | .noLink => (none, [.warning "No article found in soup."])
  | .link innerText href => (some ⟨get_title innerText, get_url href⟩, [])

/-- `WebParser._filter_articles`: the comprehension
`[article for article in articles if article is not None]`. -/
def filter_articles (articles : List (Option Article)) : List Article :=
  articles.filterMap id

/-- The batch produced by one run on a page whose `tr.athing` rows are
`rows`: `asyncio.gather` maps `_parse_single_article` over the rows in order,
then `_filter_articles` drops the `None` outcomes. -/
def extracted_batch (rows : List Row) : List Article :=
  filter_articles (rows.map fun r => (parse_single_article r).fst)

/-- The log events emitted while extracting `rows`, in row order. -/
def batch_logs (rows : List Row) : List LogEvent :=
  (rows.map fun r => (parse_single_article r).snd).flatten

/-- Outcome of the single `client.get(BASE_URL)` in `parse_all_articles`:
either the transport fails (`httpx.RequestError`), or a response with some
status code and page content (its `tr.athing` rows) arrives. -/
inductive FetchResult
  | transportError
  | status (code : Nat) (rows : List Row)
deriving Repr, DecidableEq

/-- An exception escaping a pipeline stage uncaught. -/
inductive DbError
  | multipleResultsFound
deriving Repr, DecidableEq

/-- An exception escaping `parse_all_articles` or `write_to_db` uncaught. -/
inductive RunError
  | httpStatusError (code : Nat)
  | dbError (e : DbError)
deriving Repr, DecidableEq

/-- `WebParser.parse_all_articles`.  `raise_for_status()` raises
`httpx.HTTPStatusError` unless `200 ≤ code < 300`; that exception is not an
`httpx.RequestError`, so the `except` clause does not catch it and it
propagates (embedded as `Except.error`).  A caught `httpx.RequestError` logs
at error severity and returns `None` (embedded as `.ok none`).  On success the
rows are parsed concurrently (pure, order-preserving) and filtered. -/
def parse_all_articles (f : FetchResult) :
    Except RunError (Option (List Article)) × List LogEvent :=
  match f with
  | .transportError => (.ok none, [.error "Error fetching the page"])
  | .status code rows =>
    if 200 ≤ code ∧ code < 300 then
      (.ok (some (extracted_batch rows)), batch_logs rows)
    else
      (.error (.httpStatusError code), [])

/-- The loop body of `write_to_db` over one open session.  The first argument
is the list of rows visible to a SELECT on the session's transaction: the
committed store plus every row staged (`session.add`) so far in this run,
because `session.execute` autoflushes pending rows before querying.

For each article in order: `select(ParsedArticle).where(ParsedArticle.url ==
article.url)` (with `== None` compiling to `IS NULL`, i.e. `Option` equality),
then `scalar_one_or_none()`: no match stages an insert, one match skips,
two or more matches raise `MultipleResultsFound`.  Reaching the end of the
list is `session.commit()`; an error means the commit is never reached and
the context manager rolls the transaction back. -/
def write_to_db_go : List StoredRecord → List Article → Except DbError (List StoredRecord)
  | visible, [] => .ok visible
  | visible, a :: rest =>
    match visible.filter (fun r => r.url == a.url) with
    | [] => write_to_db_go (visible ++ [⟨a.title, a.url⟩]) rest
    | [_] => write_to_db_go visible rest
    | _ :: _ :: _ => .error .multipleResultsFound

/-- `write_to_db` from parser/database.py: `.ok store'` is the committed
store after the run, `.error` means `MultipleResultsFound` escaped and the
rolled-back store is unchanged. -/
def write_to_db (store : List StoredRecord) (articles : List Article) :
    Except DbError (List StoredRecord) :=
  write_to_db_go store articles

/-- Observable outcome of one scheduled tick of `main` in
parser/__main__.py: the committed store afterwards, the log events in order,
whether `write_to_db` was invoked at all, and whether an exception escaped
the coroutine. -/
structure RunResult where
  store : List StoredRecord
  logs : List LogEvent
  persisterInvoked : Bool
  raised : Bool
deriving Repr, DecidableEq

/-- One tick of `main` (parser/__main__.py): `init_db` (schema create, no
data change), then `parse_all_articles`; the walrus `if articles := ...`
is falsy for both `None` and the empty list, in which case
`logger.warning("Articles were not added to database")`; otherwise
`write_to_db` runs and on success `logger.info(...)` follows.  An uncaught
exception from either stage leaves the store unchanged (nothing was
committed) and escapes the coroutine. -/
def main_tick (f : FetchResult) (store : List StoredRecord) : RunResult :=
  match parse_all_articles f with
  | (.error _, logs) => ⟨store, logs, false, true⟩
  | (.ok none, logs) =>
    ⟨store, logs ++ [.warning "Articles were not added to database"], false, false⟩
  | (.ok (some articles), logs) =>
    if articles.isEmpty then
      ⟨store, logs ++ [.warning "Articles were not added to database"], false, false⟩
    else
      match write_to_db store articles with
      | .ok store' =>
        ⟨store', logs ++ [.info "Articles were added to database successfully"], true, false⟩
      | .error _ => ⟨store, logs, true, true⟩

/-! ### Helper lemmas about the persister loop -/

/-- A successful persister run only appends, and for every url value `v` the
appended rows contain at most one row with that url — none at all when the
initially visible rows already contain one (the autoflushed existence check
sees every previously staged row). -/
theorem write_to_db_go_ok_extends (articles : List Article) :
    ∀ visible s', write_to_db_go visible articles = Except.ok s' →
      ∃ new, s' = visible ++ new ∧ ∀ v : Option String,
        new.countP (fun r => r.url == v) ≤
          if visible.countP (fun r => r.url == v) = 0 then 1 else 0 := by
  induction articles with
  | nil =>
    intro visible s' h
    simp only [write_to_db_go, Except.ok.injEq] at h
    exact ⟨[], by simp [h], by simp⟩
  | cons a rest ih =>
    intro visible s' h
    rw [write_to_db_go] at h
    cases hf : visible.filter (fun r => r.url == a.url) with
    | nil =>
      rw [hf] at h
      obtain ⟨new', hs, hb⟩ := ih _ _ h
      refine ⟨⟨a.title, a.url⟩ :: new', by simp [hs], ?_⟩
      intro v
      have hzero : visible.countP (fun r => r.url == v) = 0 ∨
          ¬ ((⟨a.title, a.url⟩ : StoredRecord).url == v) = true := by
        by_cases hv : (a.url == v) = true
        · left
          have : visible.countP (fun r => r.url == a.url) = 0 := by
            rw [List.countP_eq_length_filter, hf]; rfl
          simpa [show v = a.url from (eq_of_beq hv).symm] using this
        · right; simpa using hv
      have hb' := hb v
      rcases hzero with hz | hz
      · rw [if_pos hz]
        by_cases hv : (a.url == v) = true
        · have h1 : (visible ++ [(⟨a.title, a.url⟩ : StoredRecord)]).countP
              (fun r => r.url == v) = 1 := by
            simp [List.countP_append, List.countP_cons, hz, hv]
          rw [h1] at hb'
          have hb2 : new'.countP (fun r => r.url == v) = 0 := by
            simpa using hb'
          simp [List.countP_cons, hv, hb2]
        · have h1 : (visible ++ [(⟨a.title, a.url⟩ : StoredRecord)]).countP
              (fun r => r.url == v) = 0 := by
            simp [List.countP_append, List.countP_cons, hz, hv]
          rw [h1] at hb'
          have hb2 : new'.countP (fun r => r.url == v) ≤ 1 := by
            simpa using hb'
          simp only [List.countP_cons, hv]
          simpa [hv] using hb2
      · have hcount : (visible ++ [(⟨a.title, a.url⟩ : StoredRecord)]).countP
            (fun r => r.url == v) = visible.countP (fun r => r.url == v) := by
          simp [List.countP_append, List.countP_cons, hz]
        rw [hcount] at hb'
        simpa [List.countP_cons, hz] using hb'
    | cons x t =>
      cases t with
      | nil =>
        rw [hf] at h
        obtain ⟨new', hs, hb⟩ := ih _ _ h
        exact ⟨new', hs, hb⟩
      | cons y t' =>
        rw [hf] at h
        exact absurd h (by simp)

/-- After a successful persister run, every article of the batch has at least
one stored row carrying its url: the article was either skipped (a match
already existed) or staged and flushed. -/
theorem write_to_db_go_url_present (articles : List Article) :
    ∀ visible s', write_to_db_go visible articles = Except.ok s' →
      ∀ a ∈ articles, 1 ≤ s'.countP (fun r => r.url == a.url) := by
  induction articles with
  | nil => intro visible s' _ a ha; simp at ha
  | cons b rest ih =>
    intro visible s' h a ha
    rw [write_to_db_go] at h
    cases hf : visible.filter (fun r => r.url == b.url) with
    | nil =>
      rw [hf] at h
      rcases List.mem_cons.mp ha with rfl | ha'
      · obtain ⟨new', hs, -⟩ := write_to_db_go_ok_extends _ _ _ h
        have : 1 ≤ (visible ++ [(⟨a.title, a.url⟩ : StoredRecord)]).countP
            (fun r => r.url == a.url) := by
          simp [List.countP_append, List.countP_cons]
        rw [hs]
        simp only [List.countP_append] at this ⊢
        omega
      · exact ih _ _ h a ha'
    | cons x t =>
      cases t with
      | nil =>
        rw [hf] at h
        rcases List.mem_cons.mp ha with rfl | ha'
        · have hone : visible.countP (fun r => r.url == a.url) = 1 := by
            rw [List.countP_eq_length_filter, hf]; rfl
          obtain ⟨new', hs, -⟩ := write_to_db_go_ok_extends _ _ _ h
          rw [hs]
          simp only [List.countP_append]
          omega
        · exact ih _ _ h a ha'
      | cons y t' =>
        rw [hf] at h
        exact absurd h (by simp)

/-- If every article's url already has a matching visible row, the persister
run inserts nothing: it either returns the visible rows unchanged or raises
`MultipleResultsFound` part-way (committing nothing either way). -/
theorem write_to_db_go_all_present (articles : List Article) :
    ∀ visible, (∀ a ∈ articles, 1 ≤ visible.countP (fun r => r.url == a.url)) →
      write_to_db_go visible articles = Except.ok visible ∨
      write_to_db_go visible articles = Except.error DbError.multipleResultsFound := by
  induction articles with
  | nil => intro visible _; left; rfl
  | cons a rest ih =>
    intro visible hall
    have ha : 1 ≤ visible.countP (fun r => r.url == a.url) :=
      hall a (List.mem_cons_self a rest)
    rw [write_to_db_go]
    cases hf : visible.filter (fun r => r.url == a.url) with
    | nil =>
      rw [List.countP_eq_length_filter, hf] at ha
      simp at ha
    | cons x t =>
      cases t with
      | nil => exact ih visible (fun b hb => hall b (List.mem_cons_of_mem a hb))
      | cons y t' => right; rfl

/-- If the batch contains an article whose url value matches two or more
visible rows when its existence check runs, the run raises
`MultipleResultsFound`. -/
theorem write_to_db_go_multi (articles : List Article) :
    ∀ visible (a : Article), a ∈ articles →
      2 ≤ visible.countP (fun r => r.url == a.url) →
      write_to_db_go visible articles = Except.error DbError.multipleResultsFound := by
  induction articles with
  | nil => intro _ a ha; simp at ha
  | cons b rest ih =>
    intro visible a ha hdup
    rw [write_to_db_go]
    rcases List.mem_cons.mp ha with rfl | ha'
    · cases hf : visible.filter (fun r => r.url == a.url) with
      | nil => rw [List.countP_eq_length_filter, hf] at hdup; simp at hdup
      | cons x t =>
        cases t with
        | nil => rw [List.countP_eq_length_filter, hf] at hdup; simp at hdup
        | cons y t' => rfl
    · cases hf : visible.filter (fun r => r.url == b.url) with
      | nil =>
        refine ih _ a ha' ?_
        simp only [List.countP_append]
        omega
      | cons x t =>
        cases t with
        | nil => exact ih _ a ha' hdup
        | cons y t' => rfl

/-! ### Claim theorems -/

/-- Claim C1 (confirmed): running the pipeline tick twice against the same
2xx source content, starting the second run from the store the first run
produced, leaves the store exactly as the first run left it — dedupe by url
holds across runs, so the second run inserts no new rows (whether each
article is skipped by its existence check, or the run aborts on a
`MultipleResultsFound` and commits nothing). -/
theorem pipeline_idempotent_across_runs (rows : List Row) (s0 : List StoredRecord) :
    (main_tick (.status 200 rows) ((main_tick (.status 200 rows) s0).store)).store
      = (main_tick (.status 200 rows) s0).store := by
  have hp : parse_all_articles (.status 200 rows)
      = (.ok (some (extracted_batch rows)), batch_logs rows) := by
    simp [parse_all_articles]
  by_cases he : (extracted_batch rows).isEmpty
  · simp [main_tick, hp, he]
  · cases h1 : write_to_db s0 (extracted_batch rows) with
    | ok s1 =>
      have hstore1 : (main_tick (.status 200 rows) s0).store = s1 := by
        simp [main_tick, hp, he, h1]
      rw [hstore1]
      have hmem := write_to_db_go_url_present (extracted_batch rows) s0 s1 h1
      rcases write_to_db_go_all_present (extracted_batch rows) s1 hmem with h2 | h2
      · simp [main_tick, hp, he, write_to_db, h2]
      · simp [main_tick, hp, he, write_to_db, h2]
    | error e =>
      have hstore1 : (main_tick (.status 200 rows) s0).store = s0 := by
        simp [main_tick, hp, he, h1]
      rw [hstore1]
      simp [main_tick, hp, he, h1]

/-- Claim C2 (confirmed): a single successful persister run only appends to
the store, and among the appended rows no two carry the same non-null url.
The per-record existence check enforces this without a storage-level unique
constraint, because each check's SELECT autoflushes the rows staged earlier
in the same run and therefore sees them. -/
theorem write_to_db_no_duplicate_nonnull_url_per_run (store : List StoredRecord)
    (articles : List Article) (s' : List StoredRecord)
    (h : write_to_db store articles = Except.ok s') :
    ∃ new, s' = store ++ new ∧
      ∀ u : String, new.countP (fun r => r.url == some u) ≤ 1 := by
  obtain ⟨new, hs, hb⟩ := write_to_db_go_ok_extends articles store s' h
  refine ⟨new, hs, fun u => ?_⟩
  refine le_trans (hb (some u)) ?_
  split <;> simp

/-- Witness for C2 at a concrete input: persisting one article into an empty
store appends exactly that row. -/
theorem write_to_db_no_duplicate_nonnull_url_per_run_witness :
    ∃ new, [(⟨some "T", some "u"⟩ : StoredRecord)] = [] ++ new ∧
      ∀ u : String, new.countP (fun r => r.url == some u) ≤ 1 :=
  write_to_db_no_duplicate_nonnull_url_per_run [] [⟨some "T", some "u"⟩]
    [⟨some "T", some "u"⟩] (by rfl)

/-- Claim C3 counterexample: two articles sharing url `"u"` in one batch, with
that url absent from the store, do NOT both get inserted — the committed
store holds exactly one row with url `"u"`, because the second article's
existence check autoflushes the first article's staged row and finds it.  The
claimed within-batch duplicate does not occur. -/
theorem within_batch_duplicate_counterexample :
    write_to_db [] [⟨some "T", some "u"⟩, ⟨some "T", some "u"⟩]
      = Except.ok [⟨some "T", some "u"⟩] ∧
    [(⟨some "T", some "u"⟩ : StoredRecord)].countP (fun r => r.url == some "u") = 1 :=
  ⟨rfl, rfl⟩

/-- Claim C3 amended (proved): in a batch of two Records sharing one url that
is absent from the store, the first Record passes its existence check and is
staged; the second Record's existence check sees the staged row (the SELECT
autoflushes it into the open transaction) and skips it, so exactly one row is
committed — no duplicate. -/
theorem within_batch_duplicate_skipped (a b : Article) (store : List StoredRecord)
    (hurl : b.url = a.url)
    (habsent : store.countP (fun r => r.url == a.url) = 0) :
    write_to_db store [a, b] = Except.ok (store ++ [⟨a.title, a.url⟩]) := by
  have hf : store.filter (fun r => r.url == a.url) = [] := by
    rw [List.countP_eq_length_filter] at habsent
    exact List.length_eq_zero.mp habsent
  have hf2 : (store ++ [(⟨a.title, a.url⟩ : StoredRecord)]).filter
      (fun r => r.url == b.url) = [⟨a.title, a.url⟩] := by
    rw [List.filter_append]
    have h1 : store.filter (fun r => r.url == b.url) = [] := by rw [hurl]; exact hf
    rw [h1]
    simp [hurl]
  simp only [write_to_db, write_to_db_go, hf, hf2]

/-- Witness for the amended C3 at a concrete input. -/
theorem within_batch_duplicate_skipped_witness :
    write_to_db [] [⟨some "T", some "u"⟩, ⟨some "S", some "u"⟩]
      = Except.ok ([] ++ [⟨some "T", some "u"⟩]) :=
  within_batch_duplicate_skipped ⟨some "T", some "u"⟩ ⟨some "S", some "u"⟩ [] rfl rfl

/-- Claim C9 (confirmed): `write_to_db` is total only when each url value
matches at most one stored row.  If the batch contains an article whose url
value already occurs on two or more stored rows — including two null-url
rows, since `== None` compiles to `IS NULL` — `scalar_one_or_none` raises
`MultipleResultsFound` and the run aborts. -/
theorem write_to_db_requires_unique_url_precondition (store : List StoredRecord)
    (articles : List Article) (a : Article) (ha : a ∈ articles)
    (hdup : 2 ≤ store.countP (fun r => r.url == a.url)) :
    write_to_db store articles = Except.error DbError.multipleResultsFound :=
  write_to_db_go_multi articles store a ha hdup

/-- Witness for C9 at a concrete input: a store holding two null-url rows
aborts the run for a batch containing a null-url article. -/
theorem write_to_db_requires_unique_url_precondition_witness :
    write_to_db [⟨none, none⟩, ⟨some "t", none⟩] [⟨some "T", none⟩]
      = Except.error DbError.multipleResultsFound :=
  write_to_db_requires_unique_url_precondition [⟨none, none⟩, ⟨some "t", none⟩]
    [⟨some "T", none⟩] ⟨some "T", none⟩ (by decide) (by decide)

/-- Claim C10 (confirmed): a batch article whose url is null is deduplicated
against a stored null-url row — the existence lookup's `== None` compiles to
`url IS NULL`, so with exactly one null-url row already stored the article is
skipped and the store is returned unchanged. -/
theorem write_to_db_null_url_deduplicated (store : List StoredRecord) (a : Article)
    (hnull : a.url = none)
    (hone : store.countP (fun r => r.url == none) = 1) :
    write_to_db store [a] = Except.ok store := by
  have h1 : store.countP (fun r => r.url == a.url) = 1 := by
    rw [hnull]; exact hone
  have hlen : (store.filter (fun r => r.url == a.url)).length = 1 := by
    rw [← List.countP_eq_length_filter]; exact h1
  obtain ⟨x, hx⟩ := List.length_eq_one.mp hlen
  simp only [write_to_db, write_to_db_go, hx]

/-- Witness for C10 at a concrete input. -/
theorem write_to_db_null_url_deduplicated_witness :
    write_to_db [⟨some "t", none⟩] [⟨some "s", none⟩] = Except.ok [⟨some "t", none⟩] :=
  write_to_db_null_url_deduplicated [⟨some "t", none⟩] ⟨some "s", none⟩ rfl (by decide)

/-- The extracted batch of a concatenation of row lists is the concatenation
of the extracted batches (row extraction is independent per row). -/
theorem extracted_batch_append (xs ys : List Row) :
    extracted_batch (xs ++ ys) = extracted_batch xs ++ extracted_batch ys := by
  simp [extracted_batch, filter_articles]

/-- Claim C4 counterexample: on a non-2xx response (here status 404) the tick
raises (the `httpx.HTTPStatusError` from `raise_for_status` is not an
`httpx.RequestError`, so the except clause does not catch it), the store is
unchanged — but the log stream is empty, so the failure is NOT logged at
error severity, contrary to the claim. -/
theorem fetch_failure_logging_counterexample :
    main_tick (.status 404 []) [] = ⟨[], [], false, true⟩ := rfl

/-- Claim C4 amended (proved): a transport-level error abandons the batch,
leaves the store unchanged, skips the persister and logs at error severity; a
non-2xx status also abandons the batch, leaves the store unchanged and skips
the persister, but the uncaught `HTTPStatusError` escapes the tick with no
error-severity log emitted by the pipeline. -/
theorem fetch_failure_atomicity (store : List StoredRecord) (code : Nat)
    (rows : List Row) (hcode : ¬ (200 ≤ code ∧ code < 300)) :
    main_tick .transportError store
      = ⟨store, [.error "Error fetching the page",
                 .warning "Articles were not added to database"], false, false⟩ ∧
    main_tick (.status code rows) store = ⟨store, [], false, true⟩ := by
  refine ⟨rfl, ?_⟩
  simp [main_tick, parse_all_articles, hcode]

/-- Witness for the amended C4 at a concrete input. -/
theorem fetch_failure_atomicity_witness :
    main_tick .transportError ([] : List StoredRecord)
      = ⟨[], [.error "Error fetching the page",
              .warning "Articles were not added to database"], false, false⟩ ∧
    main_tick (.status 500 [Row.link "A" (some "/a")]) ([] : List StoredRecord)
      = ⟨[], [], false, true⟩ :=
  fetch_failure_atomicity [] 500 [Row.link "A" (some "/a")] (by decide)

/-- Claim C5 counterexample: a row whose anchor has text but no `href` yields
`Record(title="Title", url=None)`; that Record is NOT dropped — the whole
tick persists it, so a record missing its url reaches storage, contrary to
the claim that only Records with both fields present are persisted. -/
theorem null_url_record_persisted_counterexample :
    main_tick (.status 200 [.link "Title" none]) []
      = ⟨[⟨some "Title", none⟩],
         [.info "Articles were added to database successfully"], true, false⟩ := by
  decide

/-- Claim C5 amended (proved): the Filter drops only absent outcomes (rows
whose extraction produced no Record at all); any produced Record — even with
a null title or null url — survives the Filter and is persisted (shown here
into an empty store). -/
theorem filter_drops_only_absent_outcomes (outcomes : List (Option Article))
    (a : Article) (h : some a ∈ outcomes) :
    a ∈ filter_articles outcomes ∧
      write_to_db [] [a] = Except.ok [⟨a.title, a.url⟩] := by
  refine ⟨?_, rfl⟩
  simp only [filter_articles, List.mem_filterMap]
  exact ⟨some a, h, rfl⟩

/-- Witness for the amended C5 at a concrete input: a Record with a null url
passes the Filter and is persisted. -/
theorem filter_drops_only_absent_outcomes_witness :
    (⟨some "Title", none⟩ : Article) ∈ filter_articles [some ⟨some "Title", none⟩] ∧
      write_to_db [] [⟨some "Title", none⟩] = Except.ok [⟨some "Title", none⟩] :=
  filter_drops_only_absent_outcomes [some ⟨some "Title", none⟩] ⟨some "Title", none⟩
    (by simp)

/-- Claim C6 counterexample: a row whose anchor has an `href` but no inner
text yields `title = some ""` — the stripped empty string produced by
`get_text().strip()` — not `title = null` as claimed. -/
theorem empty_title_counterexample :
    parse_single_article (.link "" (some "/a"))
      = (some ⟨some "", some "/a"⟩, []) ∧ (some "" : Option String) ≠ none :=
  ⟨rfl, by simp⟩

/-- Claim C6 amended (proved): a row with an `href` attribute and no inner
text yields a Record with `title` equal to the empty string (not null) and
`url` equal to the href value, and that Record passes the Filter. -/
theorem empty_title_record_included (u : String) :
    parse_single_article (.link "" (some u)) = (some ⟨some "", some u⟩, []) ∧
      (⟨some "", some u⟩ : Article) ∈ filter_articles [some ⟨some "", some u⟩] := by
  exact ⟨rfl, by simp [filter_articles]⟩

/-- Claim C7 counterexample: a row missing its link structure entirely (no
titleline span, so the expected nested link element is certainly absent)
yields no Record but logs at ERROR severity — the `AttributeError` from `.a`
on `None` lands in the `except Exception` clause — not at warning severity as
claimed. -/
theorem missing_link_warning_counterexample :
    parse_single_article Row.noTitleline
      = (none, [LogEvent.error "Error parsing article"]) :=
  rfl

/-- Claim C7 amended (proved): a row without the expected nested link yields
no Record and does not abort the batch — all other rows are still extracted
and the run proceeds.  The severity depends on which part is missing: a
present titleline span with no anchor logs a warning ("No article found in
soup."), while an absent span raises an `AttributeError` that is caught and
logged at error severity. -/
theorem per_row_failure_isolation (pre post : List Row) (bad : Row)
    (h : bad = Row.noLink ∨ bad = Row.noTitleline) :
    (parse_single_article bad).fst = none ∧
    (bad = Row.noLink →
      (parse_single_article bad).snd = [.warning "No article found in soup."]) ∧
    (bad = Row.noTitleline →
      (parse_single_article bad).snd = [.error "Error parsing article"]) ∧
    (parse_all_articles (.status 200 (pre ++ bad :: post))).fst
      = Except.ok (some (extracted_batch pre ++ extracted_batch post)) := by
  have hnone : (parse_single_article bad).fst = none := by
    rcases h with rfl | rfl <;> rfl
  refine ⟨hnone, fun hb => by rw [hb]; rfl, fun hb => by rw [hb]; rfl, ?_⟩
  have hsplit : extracted_batch (pre ++ bad :: post)
      = extracted_batch pre ++ extracted_batch post := by
    rw [show bad :: post = [bad] ++ post from rfl, extracted_batch_append,
      extracted_batch_append]
    have : extracted_batch [bad] = [] := by
      simp [extracted_batch, filter_articles, hnone]
    rw [this, List.nil_append]
  simp [parse_all_articles, hsplit]

/-- Witness for the amended C7 at a concrete input: a span-without-anchor row
between two good rows is skipped while both neighbours are extracted. -/
theorem per_row_failure_isolation_witness :
    (parse_single_article Row.noLink).fst = none ∧
    (Row.noLink = Row.noLink →
      (parse_single_article Row.noLink).snd
        = [.warning "No article found in soup."]) ∧
    (Row.noLink = Row.noTitleline →
      (parse_single_article Row.noLink).snd = [.error "Error parsing article"]) ∧
    (parse_all_articles (.status 200
        ([Row.link "A" (some "/a")] ++ Row.noLink :: [Row.link "B" (some "/b")]))).fst
      = Except.ok (some (extracted_batch [Row.link "A" (some "/a")]
          ++ extracted_batch [Row.link "B" (some "/b")])) :=
  per_row_failure_isolation [Row.link "A" (some "/a")] [Row.link "B" (some "/b")]
    Row.noLink (Or.inl rfl)

/-- Claim C8 (confirmed): a page with zero `tr.athing` rows produces the
empty batch; the tick raises nothing, never invokes the persister, leaves the
store unchanged, and logs the scheduler's warning for an empty result. -/
theorem empty_in_empty_out (store : List StoredRecord) :
    main_tick (.status 200 []) store
      = ⟨store, [.warning "Articles were not added to database"], false, false⟩ :=
  rfl
